import Mathlib

/-!
Shallow embedding of the `absurd-future` crate and its `tokio` example.

Futures are modelled as step machines: polling is a function from the
machine's state to a new state together with a `Poll` outcome.  Rust's
uninhabited `Infallible` type is rendered as `Empty`, `anyhow::Result<A>`
as `Except String A` (an `anyhow::Error` is observed only through its
rendered message), and `tokio`'s `JoinSet::join_next` outcome as an
explicit input parameter of `main_inner`'s match.
-/

/-- One drive-step outcome of a suspendable computation (Rust's `Poll`):
either still suspended or completed with a value. -/
inductive Poll (α : Type) where
  | pending
  | ready (v : α)
  deriving DecidableEq

deriving instance DecidableEq for Except

/-- A suspendable computation as a step machine: polling transforms the
state and yields a `Poll` outcome (state-passing rendering of Rust's
`Future::poll`, which mutates the future in place). -/
structure FutureM (σ α : Type) where
  poll : σ → σ × Poll α

/-- The list of poll outcomes observed over `n` successive drive steps. -/
def driveTrace {σ α : Type} (step : σ → σ × Poll α) : σ → Nat → List (Poll α)
  | _, 0 => []
  | s, n + 1 => (step s).2 :: driveTrace step (step s).1 n

/-- The machine state reached after `n` successive drive steps. -/
def driveState {σ α : Type} (step : σ → σ × Poll α) : σ → Nat → σ
  | s, 0 => s
  | s, n + 1 => driveState step (step s).1 n

/-- Rust `struct AbsurdFuture<F, T> { inner: Pin<Box<F>>, _marker: PhantomData<fn() -> T> }`:
it owns the inner future's state `σ`; the output type `T` is phantom
(no runtime state), so it appears only as a type parameter. -/
structure AbsurdFuture (σ : Type) (T : Type) where
  inner : σ

/-- Rust `AbsurdFuture::new`: wraps the given future, taking ownership of it.
No polling happens and nothing can fail here: the state is stored unchanged. -/
def AbsurdFuture.new {σ T : Type} (inner : σ) : AbsurdFuture σ T :=
  { inner := inner }

/-- Rust `impl Future for AbsurdFuture` (`lib.rs` lines 84–90): poll the inner
future once; on `Pending` forward `Pending`; on `Ready(never)` match on the
`Infallible` value (`match never {}`), which is the empty elimination. -/
def AbsurdFuture.pollStep {σ T : Type} (M : FutureM σ Empty)
    (self : AbsurdFuture σ T) : AbsurdFuture σ T × Poll T :=
  match M.poll self.inner with
  | (s, Poll.pending) => ({ inner := s }, Poll.pending)
  | (_, Poll.ready never) => never.elim

/-- Rust `fn absurd_future<F, T>(future: F) -> AbsurdFuture<F, T>`:
delegates to `AbsurdFuture::new`. -/
def absurd_future {σ T : Type} (future : σ) : AbsurdFuture σ T :=
  AbsurdFuture.new future

/-- The retyping of an inner poll outcome performed by the adapter:
`Pending` maps to `Pending`, and a `Ready` carrying the uninhabited value
is eliminated (the `match never {}` branch). -/
def adaptPoll {T : Type} : Poll Empty → Poll T
  | Poll.pending => Poll.pending
  | Poll.ready v => v.elim

/-- Modelled from the spec: the external runtime's join error (`tokio`'s
`JoinError`, not part of this repository) — a member task terminated either
because an external actor cancelled it or because it panicked; its
human-readable rendering distinguishes the two. -/
inductive JoinError where
  | cancelled (id : Nat)
  | panicked (id : Nat) (msg : String)
  deriving DecidableEq

/-- Modelled from the spec: the human-readable rendering of a join error
used when it is interpolated into an error message. -/
def JoinError.display : JoinError → String
  | JoinError.cancelled id => "task " ++ toString id ++ " was cancelled"
  | JoinError.panicked id msg =>
      "task " ++ toString id ++ " panicked with message " ++ msg

/-- The completion value `join_next` can hand to `main_inner` for a member
task whose success payload has type `α`: `Ok` of the task's own
`Result<α>` (an application success or an application error message), or
`Err` of a join error. In the program `α = Empty` (`Infallible`). -/
def JoinOutcome (α : Type) : Type :=
  Except JoinError (Except String α)

/-- Rust `main_inner`'s match on `join_set.join_next().await`
(`tokio.rs` lines 38–56), generic in the success payload `α` (the program
instantiates `α = Empty`). The input is the observed `join_next` outcome
(`none` when no tasks remain); the result records whether `abort_all` was
called, paired with the returned `anyhow::Result`. The `Ok(Ok(_res))`
branch bails with the `Impossible` message without calling `abort_all`;
both `Err` branches call `abort_all` and bail with the task's error;
`None` calls `abort_all` and bails with the no-tasks message. -/
def mainInnerStep (α : Type) (jn : Option (JoinOutcome α)) :
    Bool × Except String α :=
  match jn with
  | some (Except.ok (Except.ok _res)) =>
      (false, Except.error "Impossible: Infallible witnessed!")
  | some (Except.ok (Except.error e)) =>
      (true, Except.error ("Task exited with " ++ e))
  | some (Except.error e) =>
      (true, Except.error ("Task exited with " ++ JoinError.display e))
  | none =>
      (true, Except.error "No tasks found in task set")

/-- Rust `main_inner` as written: its success type is `Result<Infallible>`,
so the payload type is `Empty`. -/
def mainInner : Option (JoinOutcome Empty) → Bool × Except String Empty :=
  mainInnerStep Empty

/-- Rust `main` (`tokio.rs` lines 7–11; Lean reserves the name `main`, hence
`mainFn`): `let _result = main_inner().await?; Ok(())` — an error from
`main_inner` is propagated unchanged; a success value would be bound and
discarded, returning `Ok(())`. -/
def mainFn (jn : Option (JoinOutcome Empty)) : Except String Unit :=
  match mainInner jn with
  | (_, Except.ok _result) => Except.ok ()
  | (_, Except.error e) => Except.error e

/-- Modelled from the spec: the process exit contract (Rust's `Termination`
for `Result`, external to this repository) — an `Err` return from `main`
terminates the process with a non-zero status and prints the error
message; an `Ok` return exits with status `0`. -/
def processExit : Except String Unit → Nat × Option String
  | Except.ok _ => (0, none)
  | Except.error e => (1, some e)

/-- Rust `task_one` (`tokio.rs` lines 13–18): `loop { println!(...);
sleep(1s).await; }` with output type `Infallible`. Each poll runs one loop
iteration up to the `sleep` suspension point and suspends; there is no
path producing a value, so every poll yields `Pending`. -/
def task_one : FutureM Unit Empty :=
  { poll := fun _ => ((), Poll.pending) }

/-- State of `task_two` between drive steps: `start` before the first poll,
or suspended at the `sleep` with the current (already incremented)
counter value. -/
inductive TaskTwoState where
  | start
  | sleeping (counter : Nat)
  deriving DecidableEq

/-- Rust `task_two` (`tokio.rs` lines 20–30): `counter` starts at `1`; each
iteration prints, increments `counter`, sleeps (the suspension point), and
then bails with `"Counter is >= 3"` once `counter >= 3`. The first poll
runs up to the first `sleep` with `counter = 2`; each resumption checks
the bail condition and either completes with the error or runs the next
iteration up to its `sleep`. -/
def task_two : FutureM TaskTwoState (Except String Empty) :=
  { poll := fun s =>
      match s with
      | TaskTwoState.start => (TaskTwoState.sleeping 2, Poll.pending)
      | TaskTwoState.sleeping c =>
          if c ≥ 3 then
            (TaskTwoState.sleeping c, Poll.ready (Except.error "Counter is >= 3"))
          else
            (TaskTwoState.sleeping (c + 1), Poll.pending) }

/-- Any poll outcome of the uninhabited-output inner future retypes to
`Pending`: a `Ready` would carry a value of `Empty`. -/
theorem adaptPoll_eq_pending {T : Type} (p : Poll Empty) :
    adaptPoll (T := T) p = Poll.pending := by
  cases p with
  | pending => rfl
  | ready v => exact v.elim

/-- One adapter drive step: the inner future is polled once (the adapter's
stored state advances to the inner machine's next state) and the outcome
is `Pending`. -/
theorem pollStep_eq {σ T : Type} (M : FutureM σ Empty) (a : AbsurdFuture σ T) :
    AbsurdFuture.pollStep M a
      = ({ inner := (M.poll a.inner).1 }, Poll.pending) := by
  unfold AbsurdFuture.pollStep
  rcases h : M.poll a.inner with ⟨s, p⟩
  cases p with
  | pending => rfl
  | ready v => exact v.elim

/-- C1: for every inner computation whose declared success type is the
uninhabited type and every finite number of drive steps, polling the
wrapped `AbsurdFuture` always yields `Pending`; the `Ready` branch of
`AbsurdFuture.pollStep` is unreachable, so no completed state is ever
observable through the adapted interface. -/
theorem absurdFuture_never_ready {σ T : Type} (M : FutureM σ Empty)
    (a : AbsurdFuture σ T) (n : Nat) :
    driveTrace (AbsurdFuture.pollStep M) a n = List.replicate n Poll.pending := by
  induction n generalizing a with
  | zero => rfl
  | succ n ih =>
    show (AbsurdFuture.pollStep M a).2
        :: driveTrace (AbsurdFuture.pollStep M) (AbsurdFuture.pollStep M a).1 n
      = Poll.pending :: List.replicate n Poll.pending
    rw [pollStep_eq]
    exact congrArg (Poll.pending :: ·) (ih _)

/-- Witness for C1 at a concrete adapter: wrapping `task_one` and driving
three times yields three `Pending` signals. -/
theorem absurdFuture_never_ready_witness :
    driveTrace (AbsurdFuture.pollStep task_one)
        (AbsurdFuture.new () : AbsurdFuture Unit (Except String Empty)) 3
      = List.replicate 3 Poll.pending :=
  absurdFuture_never_ready task_one (AbsurdFuture.new ()) 3

/-- C2: on each drive step the adapter polls its inner future exactly once
(its stored inner state after `n` adapter steps equals the inner machine's
state after `n` steps) and forwards the inner's suspension signal
unchanged: over any `N` drive steps the adapter's signal sequence is the
retyping of the inner computation's signal sequence, with no suspensions
added or skipped (in particular the two sequences have equal length). -/
theorem absurdFuture_pass_through {σ T : Type} (M : FutureM σ Empty)
    (s : σ) (n : Nat) :
    driveTrace (AbsurdFuture.pollStep M)
        (AbsurdFuture.new s : AbsurdFuture σ T) n
      = (driveTrace M.poll s n).map adaptPoll
    ∧ (driveState (AbsurdFuture.pollStep M)
        (AbsurdFuture.new s : AbsurdFuture σ T) n).inner
      = driveState M.poll s n
    ∧ (driveTrace (AbsurdFuture.pollStep M)
        (AbsurdFuture.new s : AbsurdFuture σ T) n).length
      = (driveTrace M.poll s n).length := by
  refine ⟨?_, ?_, ?_⟩
  · induction n generalizing s with
    | zero => rfl
    | succ n ih =>
      show (AbsurdFuture.pollStep M (AbsurdFuture.new s)).2
          :: driveTrace (AbsurdFuture.pollStep M)
              (AbsurdFuture.pollStep M (AbsurdFuture.new s)).1 n
        = adaptPoll (M.poll s).2 :: (driveTrace M.poll (M.poll s).1 n).map adaptPoll
      rw [pollStep_eq, adaptPoll_eq_pending]
      exact congrArg (Poll.pending :: ·) (ih _)
  · induction n generalizing s with
    | zero => rfl
    | succ n ih =>
      show (driveState (AbsurdFuture.pollStep M)
              (AbsurdFuture.pollStep M (AbsurdFuture.new s)).1 n).inner
        = driveState M.poll (M.poll s).1 n
      rw [pollStep_eq]
      exact ih _
  · induction n generalizing s with
    | zero => rfl
    | succ n ih =>
      show (driveTrace (AbsurdFuture.pollStep M)
              (AbsurdFuture.pollStep M (AbsurdFuture.new s)).1 n).length + 1
        = (driveTrace M.poll (M.poll s).1 n).length + 1
      rw [pollStep_eq]
      exact congrArg (· + 1) (ih _)

/-- Witness for C2 at a concrete inner future (`task_one`) and `n = 4`. -/
theorem absurdFuture_pass_through_witness :
    driveTrace (AbsurdFuture.pollStep task_one)
        (AbsurdFuture.new () : AbsurdFuture Unit (Except String Empty)) 4
      = (driveTrace task_one.poll () 4).map adaptPoll :=
  (absurdFuture_pass_through task_one () 4).1

/-- C9: for every future state and output type, `absurd_future` returns
exactly the value `AbsurdFuture.new` returns — the two construction paths
produce identical adapters with identical polling behavior — and neither
polls the inner future at construction time: the stored inner state is the
argument, unchanged. -/
theorem absurd_future_eq_new {σ T : Type} (f : σ) :
    (absurd_future f : AbsurdFuture σ T) = AbsurdFuture.new f
    ∧ (absurd_future f : AbsurdFuture σ T).inner = f
    ∧ (AbsurdFuture.new f : AbsurdFuture σ T).inner = f
    ∧ ∀ (M : FutureM σ Empty) (n : Nat),
        driveTrace (AbsurdFuture.pollStep M) (absurd_future f : AbsurdFuture σ T) n
          = driveTrace (AbsurdFuture.pollStep M) (AbsurdFuture.new f : AbsurdFuture σ T) n :=
  ⟨rfl, rfl, rfl, fun _ _ => rfl⟩

/-- Witness for C9 at the concrete future `task_one`'s state. -/
theorem absurd_future_eq_new_witness :
    (absurd_future () : AbsurdFuture Unit (Except String Empty))
      = AbsurdFuture.new () :=
  (absurd_future_eq_new ()).1

/-- C10: `task_one` never completes — for every finite number of drive
steps it remains suspended (every poll signal is `Pending`), so absent
cancellation it runs forever. -/
theorem task_one_never_completes (n : Nat) :
    driveTrace task_one.poll () n = List.replicate n Poll.pending := by
  induction n with
  | zero => rfl
  | succ n ih => exact congrArg (Poll.pending :: ·) ih

/-- Witness for C10 at `n = 5`. -/
theorem task_one_never_completes_witness :
    driveTrace task_one.poll () 5 = List.replicate 5 Poll.pending :=
  task_one_never_completes 5

/-- A join-error report never coincides with the application-error report
that `task_two` produces: the join error's rendering is interpolated into
the same format string, but the resulting messages have different lengths. -/
theorem report_of_joinError_ne (j : JoinError) :
    "Task exited with " ++ JoinError.display j
      ≠ "Task exited with Counter is >= 3" := by
  intro h
  have h1 := congrArg String.length h
  cases j with
  | cancelled id =>
    simp only [JoinError.display, String.length_append,
      show ("Task exited with " : String).length = 17 from rfl,
      show ("task " : String).length = 5 from rfl,
      show (" was cancelled" : String).length = 14 from rfl,
      show ("Task exited with Counter is >= 3" : String).length = 32 from rfl] at h1
    omega
  | panicked id msg =>
    simp only [JoinError.display, String.length_append,
      show ("Task exited with " : String).length = 17 from rfl,
      show ("task " : String).length = 5 from rfl,
      show (" panicked with message " : String).length = 23 from rfl,
      show ("Task exited with Counter is >= 3" : String).length = 32 from rfl] at h1
    omega

/-- C3: in `main_inner`, upon any observed completion of a member task,
the group calls `abort_all` before returning its failure report, and the
report is built from the error of the task that finished first: an
application error `e` is reported as `"Task exited with " ++ e`, and a
join error (panic or cancellation) as `"Task exited with "` followed by
its rendering. The `Ok(Ok(_))` "impossible success" completion carries a
value of the uninhabited type, so it is covered vacuously. -/
theorem mainInner_aborts_on_completion (jn : Option (JoinOutcome Empty))
    (r : JoinOutcome Empty) (h : jn = some r) :
    (mainInner jn).1 = true
    ∧ (∀ e, r = Except.ok (Except.error e) →
        (mainInner jn).2 = Except.error ("Task exited with " ++ e))
    ∧ (∀ j, r = Except.error j →
        (mainInner jn).2 = Except.error ("Task exited with " ++ JoinError.display j)) := by
  subst h
  rcases r with j | res
  · refine ⟨rfl, ?_, ?_⟩
    · intro e he
      exact Except.noConfusion he
    · intro j' hj
      injection hj with hj'
      subst hj'
      rfl
  · rcases res with msg | v
    · refine ⟨rfl, ?_, ?_⟩
      · intro e he
        injection he with he'
        injection he' with he''
        subst he''
        rfl
      · intro j' hj
        exact Except.noConfusion hj
    · exact v.elim

/-- Witness for C3 at the completion `task_two` actually produces. -/
theorem mainInner_aborts_on_completion_witness :
    (mainInner (some (Except.ok (Except.error "Counter is >= 3")))).1 = true :=
  (mainInner_aborts_on_completion
    (some (Except.ok (Except.error "Counter is >= 3")))
    (Except.ok (Except.error "Counter is >= 3")) rfl).1

/-- C4: the failure report `main_inner` produces in the join-error branch
(a member task panicked or was cancelled externally) differs from the one
it produces in the application-error branch for the application error this
program's tasks can raise (`task_two`'s `"Counter is >= 3"`), for every
possible join error. -/
theorem joinError_report_distinct (j : JoinError) :
    (mainInner (some (Except.error j))).2
      ≠ (mainInner (some (Except.ok (Except.error "Counter is >= 3")))).2 := by
  show Except.error ("Task exited with " ++ JoinError.display j)
      ≠ (Except.error ("Task exited with " ++ "Counter is >= 3") : Except String Empty)
  intro h
  injection h with h1
  exact report_of_joinError_ne j (h1.trans rfl)

/-- Witness for C4 at a concrete join error (external cancellation). -/
theorem joinError_report_distinct_witness :
    (mainInner (some (Except.error (JoinError.cancelled 0)))).2
      ≠ (mainInner (some (Except.ok (Except.error "Counter is >= 3")))).2 :=
  joinError_report_distinct (JoinError.cancelled 0)

/-- C5: when `join_next` reports that no tasks remain, `main_inner`
reports exactly the setup error `"No tasks found in task set"` (after
calling `abort_all`), and this report is no contract-violation report and
no task-failure report of either kind: it differs from the `Impossible`
message and from every message of the form `"Task exited with " ++ s`
(which covers both the application-error and the join-error branch). -/
theorem empty_group_reports_no_tasks :
    mainInner none = (true, Except.error "No tasks found in task set")
    ∧ "No tasks found in task set" ≠ "Impossible: Infallible witnessed!"
    ∧ ∀ s : String, "No tasks found in task set" ≠ "Task exited with " ++ s := by
  refine ⟨rfl, by decide, fun s h => ?_⟩
  have h1 := congrArg (fun t => t.data.head?) h
  simp only [String.data_append, List.cons_append, List.head?_cons] at h1
  exact absurd h1 (by decide)

/-- C6 counterexample: driving `task_two` three steps does not give three
suspension signals — it completes with the `"Counter is >= 3"` failure at
the third drive step, i.e. after only two sleep cycles, not three. -/
theorem task_two_three_cycles_cex :
    driveTrace task_two.poll TaskTwoState.start 3
        ≠ [Poll.pending, Poll.pending, Poll.pending]
    ∧ driveTrace task_two.poll TaskTwoState.start 3
        = [Poll.pending, Poll.pending,
           Poll.ready (Except.error "Counter is >= 3")] :=
  ⟨by decide, rfl⟩

/-- C6 amended: `task_two` sleeps one time unit per cycle, increments its
counter (initialized to `1` and incremented before each sleep), and fails
with `"Counter is >= 3"` once the counter reaches `3` — which happens
after two sleep cycles, not three; the group then reports `task_two`'s
failure message `"Task exited with Counter is >= 3"` while `abort_all`
sends `task_one` its cancellation request. -/
theorem task_two_fails_after_two_cycles :
    driveTrace task_two.poll TaskTwoState.start 3
        = [Poll.pending, Poll.pending,
           Poll.ready (Except.error "Counter is >= 3")]
    ∧ driveState task_two.poll TaskTwoState.start 1 = TaskTwoState.sleeping 2
    ∧ driveState task_two.poll TaskTwoState.start 2 = TaskTwoState.sleeping 3
    ∧ mainInner (some (Except.ok (Except.error "Counter is >= 3")))
        = (true, Except.error "Task exited with Counter is >= 3") :=
  ⟨rfl, rfl, rfl, rfl⟩

/-- C7: if a member task were observed to complete successfully despite
its uninhabited success type, `main_inner`'s `Ok(Ok(..))` branch treats it
as a fatal contract violation: it returns the defect report
`"Impossible: Infallible witnessed!"` — never a success value, and never
one of the ordinary recoverable reports (`"Task exited with ..."` or the
empty-group message) — so the violation is surfaced loudly rather than
silently accepted. Stated generically in the success payload `α`, since at
`α = Empty` (the program as written) no such observation can exist. -/
theorem impossible_completion_is_fatal (α : Type) (a : α) :
    mainInnerStep α (some (Except.ok (Except.ok a)))
      = (false, Except.error "Impossible: Infallible witnessed!")
    ∧ (∀ b : α, (mainInnerStep α (some (Except.ok (Except.ok a)))).2 ≠ Except.ok b)
    ∧ "Impossible: Infallible witnessed!" ≠ "No tasks found in task set"
    ∧ ∀ s : String, "Impossible: Infallible witnessed!" ≠ "Task exited with " ++ s := by
  refine ⟨rfl, ?_, by decide, ?_⟩
  · intro b hb
    exact Except.noConfusion hb
  · intro s h
    have h1 := congrArg (fun t => t.data.head?) h
    simp only [String.data_append, List.cons_append, List.head?_cons] at h1
    exact absurd h1 (by decide)

/-- Witness for C7: forcing the impossible branch with an artificial
payload type yields the fatal defect report. -/
theorem impossible_completion_is_fatal_witness :
    mainInnerStep Unit (some (Except.ok (Except.ok ())))
      = (false, Except.error "Impossible: Infallible witnessed!") :=
  (impossible_completion_is_fatal Unit ()).1

/-- C8: for every observable `join_next` outcome, `main` never surfaces a
success — `main_inner`'s `Result<Infallible>` success type makes that
structurally impossible — and the process terminates with exit status `1`
(non-zero) and a human-readable error message. -/
theorem program_always_fails (jn : Option (JoinOutcome Empty)) :
    (∀ u : Unit, mainFn jn ≠ Except.ok u)
    ∧ ∃ e, mainFn jn = Except.error e
        ∧ processExit (mainFn jn) = (1, some e)
        ∧ (processExit (mainFn jn)).1 ≠ 0 := by
  rcases jn with _ | r
  · exact ⟨fun _ hu => Except.noConfusion hu,
      "No tasks found in task set", rfl, rfl, by decide⟩
  · rcases r with j | res
    · exact ⟨fun _ hu => Except.noConfusion hu,
        "Task exited with " ++ JoinError.display j, rfl, rfl, Nat.one_ne_zero⟩
    · rcases res with msg | v
      · exact ⟨fun _ hu => Except.noConfusion hu,
          "Task exited with " ++ msg, rfl, rfl, Nat.one_ne_zero⟩
      · exact v.elim

/-- Witness for C8 at the outcome `task_two`'s failure produces. -/
theorem program_always_fails_witness :
    ∃ e, mainFn (some (Except.ok (Except.error "Counter is >= 3"))) = Except.error e
        ∧ processExit (mainFn (some (Except.ok (Except.error "Counter is >= 3"))))
            = (1, some e)
        ∧ (processExit (mainFn (some (Except.ok (Except.error "Counter is >= 3"))))).1 ≠ 0 :=
  (program_always_fails (some (Except.ok (Except.error "Counter is >= 3")))).2
